import Mathlib

/-!
Verification of the touchpad multi-finger gesture recognizer and action
dispatcher in src/input/my_touchpad_gesture.rs (THMonster/niri fork).

Embedding choices:
* Rust f64 accumulators, deltas and scale factors are modelled as exact
  rationals (ℚ); every comparison in the source is an exact comparison of
  decimal constants, so the rational model is faithful on all inputs the
  theorems quantify over.
* Rust u32 millisecond timestamps are modelled as ℕ with an explicit
  mod 2^32 at the one addition the source performs.
* The mutable methods of the Rust impl blocks become pure functions from
  the old cell to the new cell, paired with the list of external side
  effects (subprocess spawns, window commands) the call emits and the
  bool the Rust method returns.
* The compositor context (focused window, window under cursor) is an
  explicit read-only argument.
-/

namespace MyTouchpadGesture

/-- Key sequence for closing a browser tab (static CHROME_CLOSE_TAB). -/
def CHROME_CLOSE_TAB : List String := ["key", "29:1", "17:1", "17:0", "29:0"]

/-- Key sequence for previous tab (static CHROME_LEFT_TAB). -/
def CHROME_LEFT_TAB : List String := ["key", "29:1", "42:1", "15:1", "15:0", "42:0", "29:0"]

/-- Key sequence for next tab (static CHROME_RIGHT_TAB). -/
def CHROME_RIGHT_TAB : List String := ["key", "29:1", "15:1", "15:0", "29:0"]

/-- Key sequence for page refresh (static CHROME_REFRESH). -/
def CHROME_REFRESH : List String := ["key", "29:1", "19:1", "19:0", "29:0"]

/-- Key sequence for browser back (static CHROME_BACK). -/
def CHROME_BACK : List String := ["key", "158:1", "158:0"]

/-- Rust enum GestureState. -/
inductive GestureState where
  | Unknown
  | Deciding
  | Decided
deriving DecidableEq, Repr

/-- Rust enum GestureDirection. -/
inductive GestureDirection where
  | Up
  | Down
  | Left
  | Right
  | Horizontal
  | Vertical
  | In
  | Out
  | Unknown
deriving DecidableEq, Repr

/-- Rust struct SwipeGesture. -/
structure SwipeGesture where
  cx : ℚ
  cy : ℚ
  direction : GestureDirection
  decision : GestureState
deriving DecidableEq, Repr

/-- Rust struct PinchGesture. -/
structure PinchGesture where
  scale : ℚ
  direction : GestureDirection
  decision : GestureState
deriving DecidableEq, Repr

/-- Rust struct HoldGesture; begin_ts is in milliseconds (u32). -/
structure HoldGesture where
  begin_ts : ℕ
  decision : GestureState
deriving DecidableEq, Repr

/-- A window handle together with the application identifier the compositor
reports for it (None when the toplevel has no app id). -/
structure Window where
  id : ℕ
  app_id : Option String
deriving DecidableEq, Repr

/-- The slice of compositor state the dispatcher reads: the focused window
(niri.layout.focus) and the window under the cursor
(niri.window_under_cursor); None models the absence of such a window. -/
structure Ctx where
  focus : Option Window
  window_under_cursor : Option Window
deriving DecidableEq, Repr

/-- External side effects a dispatcher call can emit. -/
inductive Effect where
  | Spawn (args : List String)
  | ToggleWindowWidth (w : Window) (grow : Bool)
  | SendClose (w : Window)
deriving DecidableEq, Repr

/-- The focused-application check the Rust source repeats inline: the
focused window exists and its app id equals Some "google-chrome". -/
def is_chrome (ctx : Ctx) : Bool :=
  match ctx.focus with
  | some mapped => if mapped.app_id = some "google-chrome" then true else false
  | none => false

/-- SwipeGesture::new. -/
def SwipeGesture.new : SwipeGesture :=
  { cx := 0, cy := 0, direction := GestureDirection.Unknown,
    decision := GestureState.Unknown }

/-- SwipeGesture::reset. -/
def SwipeGesture.reset (_g : SwipeGesture) : SwipeGesture :=
  { cx := 0, cy := 0, direction := GestureDirection.Unknown,
    decision := GestureState.Unknown }

/-- SwipeGesture::begin. -/
def SwipeGesture.begin (g : SwipeGesture) : SwipeGesture :=
  { g with decision := GestureState.Deciding }

/-- SwipeGesture::update_and_maybe_decide: returns the mutated cell and the
Option the Rust method returns. -/
def SwipeGesture.update_and_maybe_decide (g : SwipeGesture) (delta_x delta_y : ℚ) :
    SwipeGesture × Option GestureDirection :=
  if g.decision ≠ GestureState.Deciding then
    (g, none)
  else
    let cx := g.cx + delta_x
    let cy := g.cy + delta_y
    if cx * cx + cy * cy ≥ 16 * 16 then
      let dir := if |cx| > |cy| then GestureDirection.Horizontal
                 else GestureDirection.Vertical
      ({ g with cx := cx, cy := cy, direction := dir,
                decision := GestureState.Decided }, some dir)
    else
      ({ g with cx := cx, cy := cy }, none)

/-- PinchGesture::new. -/
def PinchGesture.new : PinchGesture :=
  { scale := 0, direction := GestureDirection.Unknown,
    decision := GestureState.Unknown }

/-- PinchGesture::reset. -/
def PinchGesture.reset (_g : PinchGesture) : PinchGesture :=
  { scale := 0, direction := GestureDirection.Unknown,
    decision := GestureState.Unknown }

/-- PinchGesture::begin. -/
def PinchGesture.begin (g : PinchGesture) : PinchGesture :=
  { g with decision := GestureState.Deciding }

/-- HoldGesture::new. -/
def HoldGesture.new : HoldGesture :=
  { begin_ts := 0, decision := GestureState.Unknown }

/-- HoldGesture::reset. -/
def HoldGesture.reset (_g : HoldGesture) : HoldGesture :=
  { begin_ts := 0, decision := GestureState.Unknown }

/-- HoldGesture::begin. -/
def HoldGesture.begin (_g : HoldGesture) (ts : ℕ) : HoldGesture :=
  { begin_ts := ts, decision := GestureState.Decided }

/-- State::swipe_3f_on_update. -/
def swipe_3f_on_update (g : SwipeGesture) : Bool :=
  if g.decision ≠ GestureState.Decided then
    false
  else
    false

/-- State::swipe_4f_on_update: the cell is swipe_4f; dy is ignored by the
source. Returns the new cell, the spawned key sequences and the handled
flag. -/
def swipe_4f_on_update (ctx : Ctx) (g : SwipeGesture) (dx : ℚ) (_dy : ℚ) :
    SwipeGesture × List Effect × Bool :=
  if g.decision ≠ GestureState.Decided then
    (g, [], false)
  else if g.direction = GestureDirection.Horizontal then
    if is_chrome ctx then
      let cx := g.cx + dx
      if |cx| > 150 then
        if cx < 0 then
          ({ g with cx := 0 }, [Effect.Spawn CHROME_LEFT_TAB], true)
        else
          ({ g with cx := 0 }, [Effect.Spawn CHROME_RIGHT_TAB], true)
      else
        ({ g with cx := cx }, [], true)
    else
      (g, [], true)
  else
    (g, [], false)

/-- State::swipe_4f_on_end. -/
def swipe_4f_on_end (g : SwipeGesture) (_cancelled : Bool) : SwipeGesture × Bool :=
  if g.decision = GestureState.Unknown then
    (g, false)
  else
    (g.reset, true)

/-- State::pinch_3f_on_update. -/
def pinch_3f_on_update (p : PinchGesture) (scale : ℚ) : PinchGesture × Bool :=
  match p.decision with
  | GestureState.Unknown => (p, false)
  | GestureState.Deciding =>
      if scale < 9/10 then
        ({ p with direction := GestureDirection.In,
                  decision := GestureState.Decided }, true)
      else if scale > 11/10 then
        ({ p with direction := GestureDirection.Out,
                  decision := GestureState.Decided }, true)
      else
        (p, true)
  | GestureState.Decided => ({ p with scale := scale }, true)

/-- State::pinch_3f_on_end: the early returns in the Decided branch
(cancelled, or scale inside the half-open interval from 0.7 to 1.3) skip
the trailing reset, exactly as in the source. -/
def pinch_3f_on_end (ctx : Ctx) (p : PinchGesture) (cancelled : Bool) :
    PinchGesture × List Effect × Bool :=
  match p.decision with
  | GestureState.Unknown => (p, [], false)
  | GestureState.Deciding => (p.reset, [], true)
  | GestureState.Decided =>
      if cancelled then
        (p, [], true)
      else if 7/10 ≤ p.scale ∧ p.scale < 13/10 then
        (p, [], true)
      else
        match ctx.window_under_cursor with
        | some mapped =>
            if p.direction = GestureDirection.In then
              (p.reset, [Effect.ToggleWindowWidth mapped false], true)
            else
              (p.reset, [Effect.ToggleWindowWidth mapped true], true)
        | none => (p.reset, [], true)

/-- State::pinch_4f_on_update. -/
def pinch_4f_on_update (p : PinchGesture) (scale : ℚ) : PinchGesture × Bool :=
  match p.decision with
  | GestureState.Unknown => (p, false)
  | GestureState.Deciding =>
      if scale < 9/10 then
        ({ p with direction := GestureDirection.In,
                  decision := GestureState.Decided }, true)
      else if scale > 11/10 then
        ({ p with direction := GestureDirection.Out,
                  decision := GestureState.Decided }, true)
      else
        (p, true)
  | GestureState.Decided => ({ p with scale := scale }, true)

/-- State::pinch_4f_on_end: as with pinch_3f_on_end, the cancelled and
dead-zone early returns skip the trailing reset. -/
def pinch_4f_on_end (ctx : Ctx) (p : PinchGesture) (cancelled : Bool) :
    PinchGesture × List Effect × Bool :=
  match p.decision with
  | GestureState.Unknown => (p, [], false)
  | GestureState.Deciding => (p.reset, [], true)
  | GestureState.Decided =>
      if cancelled then
        (p, [], true)
      else if 7/10 ≤ p.scale ∧ p.scale < 13/10 then
        (p, [], true)
      else
        let effs :=
          if p.direction = GestureDirection.In then
            if is_chrome ctx then [Effect.Spawn CHROME_BACK] else []
          else
            if is_chrome ctx then [Effect.Spawn CHROME_REFRESH] else []
        (p.reset, effs, true)

/-- State::hold_4f_on_end: the u32 addition begin_ts + 300 is taken modulo
2^32 as Rust release-mode arithmetic would. -/
def hold_4f_on_end (ctx : Ctx) (g : HoldGesture) (ts : ℕ) (cancelled : Bool) :
    HoldGesture × List Effect × Bool :=
  if g.decision ≠ GestureState.Decided then
    (g, [], false)
  else
    let effs :=
      if ts < (g.begin_ts + 300) % 2 ^ 32 then
        []
      else if cancelled then
        []
      else if is_chrome ctx then
        [Effect.Spawn CHROME_CLOSE_TAB]
      else
        match ctx.window_under_cursor with
        | some mapped => [Effect.SendClose mapped]
        | none => []
    (g.reset, effs, true)

/-- Concrete swipe cell in the Deciding phase, used by witnesses. -/
def swipeDecidingCell : SwipeGesture :=
  { cx := 0, cy := 0, direction := GestureDirection.Unknown,
    decision := GestureState.Deciding }

/-- Concrete pinch cell in the Deciding phase, used by witnesses. -/
def pinchDecidingCell : PinchGesture :=
  { scale := 0, direction := GestureDirection.Unknown,
    decision := GestureState.Deciding }

/-- C1: while a swipe cell is Deciding, each update adds the delta to the
accumulators; while the accumulated squared displacement is below 256 the
classifier returns none and the cell stays Deciding, and on the first
update reaching 256 it commits: the decision becomes Decided and the
result is some direction, Horizontal when the absolute horizontal
accumulator strictly exceeds the vertical one and Vertical otherwise
(ties to Vertical); once no longer Deciding, updates return none and
change nothing, so a commit never happens later. -/
theorem C1_swipe_threshold_commit (g : SwipeGesture) (dx dy : ℚ)
    (hdec : g.decision = GestureState.Deciding) :
    ((g.update_and_maybe_decide dx dy).1.cx = g.cx + dx ∧
     (g.update_and_maybe_decide dx dy).1.cy = g.cy + dy) ∧
    ((g.cx + dx) * (g.cx + dx) + (g.cy + dy) * (g.cy + dy) < 256 →
      (g.update_and_maybe_decide dx dy).2 = none ∧
      (g.update_and_maybe_decide dx dy).1.decision = GestureState.Deciding ∧
      (g.update_and_maybe_decide dx dy).1.direction = g.direction) ∧
    (256 ≤ (g.cx + dx) * (g.cx + dx) + (g.cy + dy) * (g.cy + dy) →
      (g.update_and_maybe_decide dx dy).1.decision = GestureState.Decided ∧
      (g.update_and_maybe_decide dx dy).1.direction =
        (if |g.cx + dx| > |g.cy + dy| then GestureDirection.Horizontal
         else GestureDirection.Vertical) ∧
      (g.update_and_maybe_decide dx dy).2 =
        some (if |g.cx + dx| > |g.cy + dy| then GestureDirection.Horizontal
              else GestureDirection.Vertical)) ∧
    (∀ g2 : SwipeGesture, g2.decision ≠ GestureState.Deciding →
      g2.update_and_maybe_decide dx dy = (g2, none)) := by
  have h1 : ¬ (g.decision ≠ GestureState.Deciding) := by simp [hdec]
  have e : (16 : ℚ) * 16 = 256 := by norm_num
  by_cases h2 : 256 ≤ (g.cx + dx) * (g.cx + dx) + (g.cy + dy) * (g.cy + dy)
  · simp only [SwipeGesture.update_and_maybe_decide, if_neg h1, e, if_pos h2]
    refine ⟨⟨by trivial, by trivial⟩, ?_, fun _ => ⟨by trivial, by trivial, by trivial⟩, ?_⟩
    · intro hlt; exact absurd h2 (not_le.mpr hlt)
    · intro g2 hg2
      simp [SwipeGesture.update_and_maybe_decide, hg2]
  · simp only [SwipeGesture.update_and_maybe_decide, if_neg h1, e, if_neg h2]
    refine ⟨⟨by trivial, by trivial⟩, fun _ => ⟨by trivial, hdec, by trivial⟩, ?_, ?_⟩
    · intro hge; exact absurd hge h2
    · intro g2 hg2
      simp [SwipeGesture.update_and_maybe_decide, hg2]

/-- C1 witness: the theorem applied to the fresh Deciding cell with the
delta (10, 5), whose squared displacement 125 is below the threshold. -/
theorem C1_swipe_threshold_commit_witness :
    swipeDecidingCell.decision = GestureState.Deciding ∧
    (((swipeDecidingCell.update_and_maybe_decide 10 5).1.cx = swipeDecidingCell.cx + 10 ∧
      (swipeDecidingCell.update_and_maybe_decide 10 5).1.cy = swipeDecidingCell.cy + 5) ∧
     ((swipeDecidingCell.cx + 10) * (swipeDecidingCell.cx + 10) +
        (swipeDecidingCell.cy + 5) * (swipeDecidingCell.cy + 5) < 256 →
       (swipeDecidingCell.update_and_maybe_decide 10 5).2 = none ∧
       (swipeDecidingCell.update_and_maybe_decide 10 5).1.decision = GestureState.Deciding ∧
       (swipeDecidingCell.update_and_maybe_decide 10 5).1.direction =
         swipeDecidingCell.direction) ∧
     (256 ≤ (swipeDecidingCell.cx + 10) * (swipeDecidingCell.cx + 10) +
        (swipeDecidingCell.cy + 5) * (swipeDecidingCell.cy + 5) →
       (swipeDecidingCell.update_and_maybe_decide 10 5).1.decision = GestureState.Decided ∧
       (swipeDecidingCell.update_and_maybe_decide 10 5).1.direction =
         (if |swipeDecidingCell.cx + 10| > |swipeDecidingCell.cy + 5| then
            GestureDirection.Horizontal
          else GestureDirection.Vertical) ∧
       (swipeDecidingCell.update_and_maybe_decide 10 5).2 =
         some (if |swipeDecidingCell.cx + 10| > |swipeDecidingCell.cy + 5| then
                 GestureDirection.Horizontal
               else GestureDirection.Vertical)) ∧
     (∀ g2 : SwipeGesture, g2.decision ≠ GestureState.Deciding →
       g2.update_and_maybe_decide 10 5 = (g2, none))) :=
  ⟨rfl, C1_swipe_threshold_commit swipeDecidingCell 10 5 rfl⟩

/-- C3: while a pinch cell (3- or 4-finger) is Deciding, an update with
scale strictly below 0.9 commits direction In, one strictly above 1.1
commits Out, and any scale in the dead zone (including 0.9 and 1.1)
leaves the cell Deciding while still returning true; repeated updates
with scale 1.0 leave the cell Deciding indefinitely, and an update on an
Unknown cell returns false. -/
theorem C3_pinch_deadzone (p : PinchGesture) (scale : ℚ) :
    (p.decision = GestureState.Deciding →
      (scale < 9/10 →
        pinch_3f_on_update p scale =
          ({ p with direction := GestureDirection.In,
                    decision := GestureState.Decided }, true) ∧
        pinch_4f_on_update p scale =
          ({ p with direction := GestureDirection.In,
                    decision := GestureState.Decided }, true)) ∧
      (11/10 < scale →
        pinch_3f_on_update p scale =
          ({ p with direction := GestureDirection.Out,
                    decision := GestureState.Decided }, true) ∧
        pinch_4f_on_update p scale =
          ({ p with direction := GestureDirection.Out,
                    decision := GestureState.Decided }, true)) ∧
      (9/10 ≤ scale → scale ≤ 11/10 →
        pinch_3f_on_update p scale = (p, true) ∧
        pinch_4f_on_update p scale = (p, true)) ∧
      (∀ n : ℕ,
        ((fun q => (pinch_3f_on_update q 1).1)^[n] p).decision =
          GestureState.Deciding ∧
        ((fun q => (pinch_4f_on_update q 1).1)^[n] p).decision =
          GestureState.Deciding)) ∧
    (p.decision = GestureState.Unknown →
      pinch_3f_on_update p scale = (p, false) ∧
      pinch_4f_on_update p scale = (p, false)) := by
  constructor
  · intro hdec
    have hfix3 : (fun q => (pinch_3f_on_update q 1).1) p = p := by
      simp [pinch_3f_on_update, hdec]
      norm_num
    have hfix4 : (fun q => (pinch_4f_on_update q 1).1) p = p := by
      simp [pinch_4f_on_update, hdec]
      norm_num
    refine ⟨?_, ?_, ?_, ?_⟩
    · intro hlt
      constructor <;> simp [pinch_3f_on_update, pinch_4f_on_update, hdec, hlt]
    · intro hgt
      have hnlt : ¬ scale < 9/10 := by linarith
      constructor <;>
        simp [pinch_3f_on_update, pinch_4f_on_update, hdec, hnlt, hgt]
    · intro hge hle
      have hnlt : ¬ scale < 9/10 := by linarith
      have hngt : ¬ 11/10 < scale := by linarith
      constructor <;>
        simp [pinch_3f_on_update, pinch_4f_on_update, hdec, hnlt, hngt]
    · intro n
      rw [Function.iterate_fixed hfix3, Function.iterate_fixed hfix4]
      exact ⟨hdec, hdec⟩
  · intro hunk
    constructor <;> simp [pinch_3f_on_update, pinch_4f_on_update, hunk]

/-- C3 witness: the theorem applied to the fresh Deciding pinch cell at
scale 1 (the dead zone). -/
theorem C3_pinch_deadzone_witness :
    pinchDecidingCell.decision = GestureState.Deciding ∧
    (pinchDecidingCell.decision = GestureState.Deciding →
      ((1 : ℚ) < 9/10 →
        pinch_3f_on_update pinchDecidingCell 1 =
          ({ pinchDecidingCell with direction := GestureDirection.In,
                                    decision := GestureState.Decided }, true) ∧
        pinch_4f_on_update pinchDecidingCell 1 =
          ({ pinchDecidingCell with direction := GestureDirection.In,
                                    decision := GestureState.Decided }, true)) ∧
      (11/10 < (1 : ℚ) →
        pinch_3f_on_update pinchDecidingCell 1 =
          ({ pinchDecidingCell with direction := GestureDirection.Out,
                                    decision := GestureState.Decided }, true) ∧
        pinch_4f_on_update pinchDecidingCell 1 =
          ({ pinchDecidingCell with direction := GestureDirection.Out,
                                    decision := GestureState.Decided }, true)) ∧
      ((9:ℚ)/10 ≤ 1 → (1:ℚ) ≤ 11/10 →
        pinch_3f_on_update pinchDecidingCell 1 = (pinchDecidingCell, true) ∧
        pinch_4f_on_update pinchDecidingCell 1 = (pinchDecidingCell, true)) ∧
      (∀ n : ℕ,
        ((fun q => (pinch_3f_on_update q 1).1)^[n] pinchDecidingCell).decision =
          GestureState.Deciding ∧
        ((fun q => (pinch_4f_on_update q 1).1)^[n] pinchDecidingCell).decision =
          GestureState.Deciding)) ∧
    (pinchDecidingCell.decision = GestureState.Unknown →
      pinch_3f_on_update pinchDecidingCell 1 = (pinchDecidingCell, false) ∧
      pinch_4f_on_update pinchDecidingCell 1 = (pinchDecidingCell, false)) :=
  ⟨rfl, (C3_pinch_deadzone pinchDecidingCell 1).1, (C3_pinch_deadzone pinchDecidingCell 1).2⟩

/-- C8: once a swipe or pinch cell is no longer Deciding, updates do not
re-classify it: the swipe update returns none and leaves the whole cell
untouched whenever the decision differs from Deciding, and a Decided
pinch update only overwrites the stored scale with the latest sample,
leaving direction and decision unchanged. -/
theorem C8_no_reclassification (g : SwipeGesture) (dx dy : ℚ)
    (p q : PinchGesture) (s t : ℚ)
    (hg : g.decision ≠ GestureState.Deciding)
    (hp : p.decision = GestureState.Decided)
    (hq : q.decision = GestureState.Decided) :
    g.update_and_maybe_decide dx dy = (g, none) ∧
    pinch_3f_on_update p s = ({ p with scale := s }, true) ∧
    pinch_4f_on_update q t = ({ q with scale := t }, true) := by
  refine ⟨?_, ?_, ?_⟩
  · simp [SwipeGesture.update_and_maybe_decide, hg]
  · simp [pinch_3f_on_update, hp]
  · simp [pinch_4f_on_update, hq]

/-- C8 witness: a Decided swipe cell and Decided pinch cells at concrete
samples. -/
theorem C8_no_reclassification_witness :
    (SwipeGesture.mk 3 4 GestureDirection.Vertical GestureState.Decided).decision ≠
        GestureState.Deciding ∧
    (PinchGesture.mk 1 GestureDirection.In GestureState.Decided).decision =
        GestureState.Decided ∧
    (PinchGesture.mk 1 GestureDirection.Out GestureState.Decided).decision =
        GestureState.Decided ∧
    ((SwipeGesture.mk 3 4 GestureDirection.Vertical GestureState.Decided).update_and_maybe_decide
        5 6 = (SwipeGesture.mk 3 4 GestureDirection.Vertical GestureState.Decided, none) ∧
     pinch_3f_on_update (PinchGesture.mk 1 GestureDirection.In GestureState.Decided) (6/5) =
       ({ PinchGesture.mk 1 GestureDirection.In GestureState.Decided with scale := 6/5 }, true) ∧
     pinch_4f_on_update (PinchGesture.mk 1 GestureDirection.Out GestureState.Decided) (4/5) =
       ({ PinchGesture.mk 1 GestureDirection.Out GestureState.Decided with scale := 4/5 }, true)) :=
  ⟨by decide, rfl, rfl,
   C8_no_reclassification
     (SwipeGesture.mk 3 4 GestureDirection.Vertical GestureState.Decided) 5 6
     (PinchGesture.mk 1 GestureDirection.In GestureState.Decided)
     (PinchGesture.mk 1 GestureDirection.Out GestureState.Decided) (6/5) (4/5)
     (by decide) rfl rfl⟩

/-- C9: every on_end handler called while its cell is Unknown is a benign
no-op: it returns false, emits no effect, and leaves the cell unchanged
(so a second on_end after a completed one fires no action twice). -/
theorem C9_end_unknown_noop (ctx : Ctx) (g : SwipeGesture) (p q : PinchGesture)
    (hgc : HoldGesture) (ts : ℕ) (c1 c2 c3 c4 : Bool)
    (hg : g.decision = GestureState.Unknown)
    (hp : p.decision = GestureState.Unknown)
    (hq : q.decision = GestureState.Unknown)
    (hh : hgc.decision = GestureState.Unknown) :
    swipe_4f_on_end g c1 = (g, false) ∧
    pinch_3f_on_end ctx p c2 = (p, [], false) ∧
    pinch_4f_on_end ctx q c3 = (q, [], false) ∧
    hold_4f_on_end ctx hgc ts c4 = (hgc, [], false) := by
  refine ⟨?_, ?_, ?_, ?_⟩
  · simp [swipe_4f_on_end, hg]
  · simp [pinch_3f_on_end, hp]
  · simp [pinch_4f_on_end, hq]
  · simp [hold_4f_on_end, hh]

/-- C9 witness: the four on_end handlers applied to freshly reset cells. -/
theorem C9_end_unknown_noop_witness :
    SwipeGesture.new.decision = GestureState.Unknown ∧
    PinchGesture.new.decision = GestureState.Unknown ∧
    HoldGesture.new.decision = GestureState.Unknown ∧
    (swipe_4f_on_end SwipeGesture.new false = (SwipeGesture.new, false) ∧
     pinch_3f_on_end (Ctx.mk none none) PinchGesture.new false =
       (PinchGesture.new, [], false) ∧
     pinch_4f_on_end (Ctx.mk none none) PinchGesture.new true =
       (PinchGesture.new, [], false) ∧
     hold_4f_on_end (Ctx.mk none none) HoldGesture.new 1000 false =
       (HoldGesture.new, [], false)) :=
  ⟨rfl, rfl, rfl,
   C9_end_unknown_noop (Ctx.mk none none) SwipeGesture.new PinchGesture.new
     PinchGesture.new HoldGesture.new 1000 false false true false rfl rfl rfl rfl⟩

/-- A Decided pinch cell as produced by a committing In update followed by
a post-commit sample of 1, used to exhibit the missed reset. -/
def pinchDecidedCell : PinchGesture :=
  { scale := 1, direction := GestureDirection.In, decision := GestureState.Decided }

/-- C2 counterexample: pinch_3f_on_end with cancelled = true on a Decided
cell returns without resetting, so the decision afterwards is still
Decided, not Unknown; the same early return exists in pinch_4f_on_end. -/
theorem C2_counterexample_end_no_reset :
    (pinch_3f_on_end (Ctx.mk none none) pinchDecidedCell true).1.decision ≠
        GestureState.Unknown ∧
    (pinch_4f_on_end (Ctx.mk none none) pinchDecidedCell true).1.decision ≠
        GestureState.Unknown ∧
    (pinch_3f_on_end (Ctx.mk none none) pinchDecidedCell false).1.decision ≠
        GestureState.Unknown := by
  refine ⟨by decide, by decide, ?_⟩
  simp only [pinch_3f_on_end, pinchDecidedCell]
  norm_num
  decide

/-- C2 amended: an on_end call on a non-Unknown cell dispatches the
applicable terminal effects; swipe_4f_on_end and hold_4f_on_end then
reset the cell to Unknown whenever they dispatch at all (swipe on any
non-Unknown cell, hold on a Decided cell, the only phase a hold cell
reaches), but the pinch on_end handlers reset
only when no early return fires: a Decided pinch cell that is cancelled,
or whose stored scale lies inside the half-open interval from 0.7 to
1.3, is returned unchanged (still Decided). -/
theorem C2_amended_end_reset (ctx : Ctx) (g : SwipeGesture) (p q : PinchGesture)
    (hgc : HoldGesture) (ts : ℕ) (c : Bool)
    (hg : g.decision ≠ GestureState.Unknown)
    (hh : hgc.decision = GestureState.Decided)
    (hp : p.decision ≠ GestureState.Unknown)
    (hq : q.decision ≠ GestureState.Unknown) :
    (swipe_4f_on_end g c).1.decision = GestureState.Unknown ∧
    (hold_4f_on_end ctx hgc ts c).1.decision = GestureState.Unknown ∧
    ((pinch_3f_on_end ctx p c).1.decision = GestureState.Unknown ↔
      ¬ (p.decision = GestureState.Decided ∧
         (c = true ∨ (7/10 ≤ p.scale ∧ p.scale < 13/10)))) ∧
    ((pinch_4f_on_end ctx q c).1.decision = GestureState.Unknown ↔
      ¬ (q.decision = GestureState.Decided ∧
         (c = true ∨ (7/10 ≤ q.scale ∧ q.scale < 13/10)))) := by
  refine ⟨?_, ?_, ?_, ?_⟩
  · simp only [swipe_4f_on_end, if_neg hg]
    rfl
  · simp [hold_4f_on_end, hh, HoldGesture.reset]
  · rcases p with ⟨ps, pdir, pd⟩
    cases pd with
    | Unknown => exact absurd rfl hp
    | Deciding =>
        simp only [pinch_3f_on_end, PinchGesture.reset]
        simp
    | Decided =>
        simp only [pinch_3f_on_end]
        by_cases hc : c
        · subst hc
          simp
        · simp only [Bool.not_eq_true] at hc
          subst hc
          by_cases hz : (7:ℚ)/10 ≤ ps ∧ ps < 13/10
          · simp [hz]
          · simp only [if_neg hz, Bool.false_eq_true, false_or]
            cases hw : ctx.window_under_cursor with
            | none => simp [PinchGesture.reset, hz]
            | some w =>
                by_cases hdir : pdir = GestureDirection.In
                · simp [hdir, PinchGesture.reset, hz]
                · simp [hdir, PinchGesture.reset, hz]
  · rcases q with ⟨qs, qdir, qd⟩
    cases qd with
    | Unknown => exact absurd rfl hq
    | Deciding =>
        simp only [pinch_4f_on_end, PinchGesture.reset]
        simp
    | Decided =>
        simp only [pinch_4f_on_end]
        by_cases hc : c
        · subst hc
          simp
        · simp only [Bool.not_eq_true] at hc
          subst hc
          by_cases hz : (7:ℚ)/10 ≤ qs ∧ qs < 13/10
          · simp [hz]
          · simp [hz, PinchGesture.reset]

/-- C2 amended witness: Decided cells with scale 0 (outside the dead zone)
and cancelled = false, where every handler does reset to Unknown. -/
theorem C2_amended_end_reset_witness :
    (SwipeGesture.mk 0 0 GestureDirection.Horizontal GestureState.Decided).decision ≠
        GestureState.Unknown ∧
    (HoldGesture.mk 1000 GestureState.Decided).decision = GestureState.Decided ∧
    (PinchGesture.mk 0 GestureDirection.In GestureState.Decided).decision ≠
        GestureState.Unknown ∧
    ((swipe_4f_on_end (SwipeGesture.mk 0 0 GestureDirection.Horizontal GestureState.Decided)
          false).1.decision = GestureState.Unknown ∧
     (hold_4f_on_end (Ctx.mk none none) (HoldGesture.mk 1000 GestureState.Decided) 1350
          false).1.decision = GestureState.Unknown ∧
     ((pinch_3f_on_end (Ctx.mk none none)
            (PinchGesture.mk 0 GestureDirection.In GestureState.Decided) false).1.decision =
          GestureState.Unknown ↔
        ¬ ((PinchGesture.mk 0 GestureDirection.In GestureState.Decided).decision =
             GestureState.Decided ∧
           (false = true ∨
            (7/10 ≤ (PinchGesture.mk 0 GestureDirection.In GestureState.Decided).scale ∧
             (PinchGesture.mk 0 GestureDirection.In GestureState.Decided).scale < 13/10)))) ∧
     ((pinch_4f_on_end (Ctx.mk none none)
            (PinchGesture.mk 0 GestureDirection.In GestureState.Decided) false).1.decision =
          GestureState.Unknown ↔
        ¬ ((PinchGesture.mk 0 GestureDirection.In GestureState.Decided).decision =
             GestureState.Decided ∧
           (false = true ∨
            (7/10 ≤ (PinchGesture.mk 0 GestureDirection.In GestureState.Decided).scale ∧
             (PinchGesture.mk 0 GestureDirection.In GestureState.Decided).scale < 13/10))))) :=
  ⟨by decide, by decide, by decide,
   C2_amended_end_reset (Ctx.mk none none)
     (SwipeGesture.mk 0 0 GestureDirection.Horizontal GestureState.Decided)
     (PinchGesture.mk 0 GestureDirection.In GestureState.Decided)
     (PinchGesture.mk 0 GestureDirection.In GestureState.Decided)
     (HoldGesture.mk 1000 GestureState.Decided) 1350 false
     (by decide) (by decide) (by decide) (by decide)⟩

/-- A window whose application identifier is the configured target. -/
def chromeWindow : Window := { id := 1, app_id := some "google-chrome" }

/-- A window whose application identifier is not the target. -/
def otherWindow : Window := { id := 2, app_id := some "firefox" }

/-- A context whose focused window is the target application. -/
def chromeCtx : Ctx := { focus := some chromeWindow, window_under_cursor := some otherWindow }

/-- A context whose focused window is not the target application. -/
def otherCtx : Ctx := { focus := some otherWindow, window_under_cursor := some otherWindow }

/-- C4: a hold-4 begin records the timestamp and is immediately Decided;
hold_4f_on_end on the Decided cell returns true, resets the cell, and
emits an effect exactly when not cancelled and the hold lasted at least
300 ms, injecting the close-tab sequence when the focused window is the
target application and otherwise sending a close request to the window
under the cursor (nothing when there is none). The hypothesis keeps the
u32 sum begin_ts + 300 below 2^32, so it does not wrap. -/
theorem C4_hold4_threshold (ctx : Ctx) (g0 : HoldGesture) (ts0 ts : ℕ) (c : Bool)
    (hov : ts0 + 300 < 2 ^ 32) :
    (g0.begin ts0).begin_ts = ts0 ∧
    (g0.begin ts0).decision = GestureState.Decided ∧
    (hold_4f_on_end ctx (g0.begin ts0) ts c).2.2 = true ∧
    (hold_4f_on_end ctx (g0.begin ts0) ts c).1 = HoldGesture.new ∧
    (hold_4f_on_end ctx (g0.begin ts0) ts c).2.1 =
      (if c = false ∧ 300 ≤ ts - ts0 then
         (if is_chrome ctx then [Effect.Spawn CHROME_CLOSE_TAB]
          else
            match ctx.window_under_cursor with
            | some w => [Effect.SendClose w]
            | none => [])
       else []) := by
  have hmod : (ts0 + 300) % 2 ^ 32 = ts0 + 300 := Nat.mod_eq_of_lt hov
  refine ⟨rfl, rfl, ?_, ?_, ?_⟩
  · simp [hold_4f_on_end, HoldGesture.begin]
  · simp [hold_4f_on_end, HoldGesture.begin, HoldGesture.reset, HoldGesture.new]
  · by_cases hts : ts < ts0 + 300
    · have hc2 : ¬ (c = false ∧ 300 ≤ ts - ts0) := by
        rintro ⟨-, h⟩
        omega
      simp [hold_4f_on_end, HoldGesture.begin, hmod, hts, hc2]
      intro h1 h2
      exfalso
      omega
    · by_cases hc : c
      · subst hc
        simp [hold_4f_on_end, HoldGesture.begin, hmod, hts]
      · simp only [Bool.not_eq_true] at hc
        subst hc
        have h2 : ((false : Bool) = false ∧ 300 ≤ ts - ts0) := ⟨rfl, by omega⟩
        simp [hold_4f_on_end, HoldGesture.begin, hmod, hts, h2]
        intro h3
        exfalso
        omega

/-- C4 witness: begin at 1000, end at 1350 not cancelled with the target
application focused: the close-tab sequence is injected. -/
theorem C4_hold4_threshold_witness :
    1000 + 300 < 2 ^ 32 ∧
    ((HoldGesture.new.begin 1000).begin_ts = 1000 ∧
     (HoldGesture.new.begin 1000).decision = GestureState.Decided ∧
     (hold_4f_on_end chromeCtx (HoldGesture.new.begin 1000) 1350 false).2.2 = true ∧
     (hold_4f_on_end chromeCtx (HoldGesture.new.begin 1000) 1350 false).1 = HoldGesture.new ∧
     (hold_4f_on_end chromeCtx (HoldGesture.new.begin 1000) 1350 false).2.1 =
       (if (false : Bool) = false ∧ 300 ≤ 1350 - 1000 then
          (if is_chrome chromeCtx then [Effect.Spawn CHROME_CLOSE_TAB]
           else
             match chromeCtx.window_under_cursor with
             | some w => [Effect.SendClose w]
             | none => [])
        else [])) :=
  ⟨by norm_num, C4_hold4_threshold chromeCtx HoldGesture.new 1000 1350 false (by norm_num)⟩

/-- C5: on a Decided Horizontal swipe-4 cell every update reports handled;
with the target application focused the delta is added to the
post-decision accumulator, and as soon as its absolute value exceeds 150
the previous-tab (negative) or next-tab (positive) sequence is injected
and the accumulator is reset to 0; with any other focus the update emits
nothing and leaves the cell unchanged while still reporting handled. -/
theorem C5_swipe4_live_accumulator (ctx : Ctx) (g : SwipeGesture) (dx dy : ℚ)
    (hdec : g.decision = GestureState.Decided)
    (hdir : g.direction = GestureDirection.Horizontal) :
    (swipe_4f_on_update ctx g dx dy).2.2 = true ∧
    (is_chrome ctx = false → swipe_4f_on_update ctx g dx dy = (g, [], true)) ∧
    (is_chrome ctx = true →
      (|g.cx + dx| ≤ 150 →
        swipe_4f_on_update ctx g dx dy = ({ g with cx := g.cx + dx }, [], true)) ∧
      (150 < |g.cx + dx| → g.cx + dx < 0 →
        swipe_4f_on_update ctx g dx dy =
          ({ g with cx := 0 }, [Effect.Spawn CHROME_LEFT_TAB], true)) ∧
      (150 < |g.cx + dx| → 0 ≤ g.cx + dx →
        swipe_4f_on_update ctx g dx dy =
          ({ g with cx := 0 }, [Effect.Spawn CHROME_RIGHT_TAB], true))) := by
  have hne : ¬ (g.decision ≠ GestureState.Decided) := by simp [hdec]
  refine ⟨?_, ?_, ?_⟩
  · simp only [swipe_4f_on_update, if_neg hne, if_pos hdir]
    split_ifs <;> rfl
  · intro hch
    simp [swipe_4f_on_update, if_neg hne, hdir, hch]
  · intro hch
    refine ⟨?_, ?_, ?_⟩
    · intro hle
      have hnabs : ¬ |g.cx + dx| > 150 := not_lt.mpr hle
      simp [swipe_4f_on_update, if_neg hne, hdir, hch, hnabs]
    · intro habs hneg
      simp [swipe_4f_on_update, if_neg hne, hdir, hch, habs, hneg]
    · intro habs hpos
      have hnneg : ¬ (g.cx + dx < 0) := not_lt.mpr hpos
      simp [swipe_4f_on_update, if_neg hne, hdir, hch, habs, hnneg]

/-- C5 witness: the decided Horizontal cell with accumulator 0 fed a delta
of 160 while the target application is focused: the next-tab sequence
fires and the accumulator is reset to 0. -/
theorem C5_swipe4_live_accumulator_witness :
    (SwipeGesture.mk 0 0 GestureDirection.Horizontal GestureState.Decided).decision =
        GestureState.Decided ∧
    (SwipeGesture.mk 0 0 GestureDirection.Horizontal GestureState.Decided).direction =
        GestureDirection.Horizontal ∧
    ((swipe_4f_on_update chromeCtx
        (SwipeGesture.mk 0 0 GestureDirection.Horizontal GestureState.Decided) 160 0).2.2 =
          true ∧
     (is_chrome chromeCtx = false →
       swipe_4f_on_update chromeCtx
         (SwipeGesture.mk 0 0 GestureDirection.Horizontal GestureState.Decided) 160 0 =
         (SwipeGesture.mk 0 0 GestureDirection.Horizontal GestureState.Decided, [], true)) ∧
     (is_chrome chromeCtx = true →
       (|(SwipeGesture.mk 0 0 GestureDirection.Horizontal GestureState.Decided).cx + 160| ≤
            150 →
         swipe_4f_on_update chromeCtx
           (SwipeGesture.mk 0 0 GestureDirection.Horizontal GestureState.Decided) 160 0 =
           ({ SwipeGesture.mk 0 0 GestureDirection.Horizontal GestureState.Decided with
                cx := (SwipeGesture.mk 0 0 GestureDirection.Horizontal
                         GestureState.Decided).cx + 160 }, [], true)) ∧
       (150 < |(SwipeGesture.mk 0 0 GestureDirection.Horizontal GestureState.Decided).cx +
            160| →
         (SwipeGesture.mk 0 0 GestureDirection.Horizontal GestureState.Decided).cx + 160 <
            0 →
         swipe_4f_on_update chromeCtx
           (SwipeGesture.mk 0 0 GestureDirection.Horizontal GestureState.Decided) 160 0 =
           ({ SwipeGesture.mk 0 0 GestureDirection.Horizontal GestureState.Decided with
                cx := 0 }, [Effect.Spawn CHROME_LEFT_TAB], true)) ∧
       (150 < |(SwipeGesture.mk 0 0 GestureDirection.Horizontal GestureState.Decided).cx +
            160| →
         0 ≤ (SwipeGesture.mk 0 0 GestureDirection.Horizontal GestureState.Decided).cx +
            160 →
         swipe_4f_on_update chromeCtx
           (SwipeGesture.mk 0 0 GestureDirection.Horizontal GestureState.Decided) 160 0 =
           ({ SwipeGesture.mk 0 0 GestureDirection.Horizontal GestureState.Decided with
                cx := 0 }, [Effect.Spawn CHROME_RIGHT_TAB], true)))) :=
  ⟨rfl, rfl,
   C5_swipe4_live_accumulator chromeCtx
     (SwipeGesture.mk 0 0 GestureDirection.Horizontal GestureState.Decided) 160 0 rfl rfl⟩

/-- C6: on a Decided pinch-4 cell whose direction is In or Out,
pinch_4f_on_end injects a key sequence exactly when the gesture was not
cancelled, the stored scale lies outside the half-open interval from 0.7
to 1.3, and the focused window is the target application: the back
sequence for In, the refresh sequence for Out; with a non-target or
absent focused window nothing is spawned. -/
theorem C6_pinch4_end_action (ctx : Ctx) (p : PinchGesture) (c : Bool)
    (hdec : p.decision = GestureState.Decided)
    (hdir : p.direction = GestureDirection.In ∨ p.direction = GestureDirection.Out) :
    (pinch_4f_on_end ctx p c).2.1 =
      (if c = false ∧ (p.scale < 7/10 ∨ 13/10 ≤ p.scale) ∧ is_chrome ctx = true then
         [Effect.Spawn
            (if p.direction = GestureDirection.In then CHROME_BACK else CHROME_REFRESH)]
       else []) := by
  rcases p with ⟨ps, pdir, pd⟩
  simp only at hdec
  subst hdec
  by_cases hc : c
  · subst hc
    simp [pinch_4f_on_end]
  · simp only [Bool.not_eq_true] at hc
    subst hc
    by_cases hz : (7:ℚ)/10 ≤ ps ∧ ps < 13/10
    · have hout : ¬ (ps < 7/10 ∨ (13:ℚ)/10 ≤ ps) := by
        push_neg
        exact ⟨hz.1, hz.2⟩
      simp [pinch_4f_on_end, hz, hout]
    · have hout : (ps < 7/10 ∨ (13:ℚ)/10 ≤ ps) := by
        by_contra hcon
        push_neg at hcon
        exact hz ⟨hcon.1, hcon.2⟩
      by_cases hch : is_chrome ctx
      · by_cases hd : pdir = GestureDirection.In
        · simp [pinch_4f_on_end, hz, hout, hch, hd]
        · simp [pinch_4f_on_end, hz, hout, hch, hd]
      · simp only [Bool.not_eq_true] at hch
        simp [pinch_4f_on_end, hz, hout, hch]

/-- C6 witness: a Decided In pinch-4 cell with final scale 0.5, not
cancelled, target application focused: the back sequence is spawned. -/
theorem C6_pinch4_end_action_witness :
    (PinchGesture.mk (1/2) GestureDirection.In GestureState.Decided).decision =
        GestureState.Decided ∧
    ((PinchGesture.mk (1/2) GestureDirection.In GestureState.Decided).direction =
        GestureDirection.In ∨
     (PinchGesture.mk (1/2) GestureDirection.In GestureState.Decided).direction =
        GestureDirection.Out) ∧
    (pinch_4f_on_end chromeCtx
        (PinchGesture.mk (1/2) GestureDirection.In GestureState.Decided) false).2.1 =
      (if (false : Bool) = false ∧
          ((PinchGesture.mk (1/2) GestureDirection.In GestureState.Decided).scale < 7/10 ∨
            13/10 ≤ (PinchGesture.mk (1/2) GestureDirection.In GestureState.Decided).scale) ∧
          is_chrome chromeCtx = true then
         [Effect.Spawn
            (if (PinchGesture.mk (1/2) GestureDirection.In GestureState.Decided).direction =
                  GestureDirection.In then CHROME_BACK
             else CHROME_REFRESH)]
       else []) :=
  ⟨rfl, Or.inl rfl,
   C6_pinch4_end_action chromeCtx
     (PinchGesture.mk (1/2) GestureDirection.In GestureState.Decided) false rfl (Or.inl rfl)⟩

/-- C7: on a Decided pinch-3 cell whose direction is In or Out,
pinch_3f_on_end toggles the width of the window under the cursor exactly
when the gesture was not cancelled, the stored scale lies outside the
half-open interval from 0.7 to 1.3, and such a window exists, shrinking
(grow = false) for In and growing (grow = true) for Out; when cancelled,
inside the dead zone, or with no window under the cursor, no toggle is
emitted. -/
theorem C7_pinch3_end_action (ctx : Ctx) (p : PinchGesture) (c : Bool)
    (hdec : p.decision = GestureState.Decided)
    (hdir : p.direction = GestureDirection.In ∨ p.direction = GestureDirection.Out) :
    (pinch_3f_on_end ctx p c).2.1 =
      (if c = false ∧ (p.scale < 7/10 ∨ 13/10 ≤ p.scale) then
         (match ctx.window_under_cursor with
          | some w =>
              [Effect.ToggleWindowWidth w
                 (if p.direction = GestureDirection.In then false else true)]
          | none => [])
       else []) := by
  rcases p with ⟨ps, pdir, pd⟩
  simp only at hdec
  subst hdec
  by_cases hc : c
  · subst hc
    simp [pinch_3f_on_end]
  · simp only [Bool.not_eq_true] at hc
    subst hc
    by_cases hz : (7:ℚ)/10 ≤ ps ∧ ps < 13/10
    · have hout : ¬ (ps < 7/10 ∨ (13:ℚ)/10 ≤ ps) := by
        push_neg
        exact ⟨hz.1, hz.2⟩
      simp [pinch_3f_on_end, hz, hout]
    · have hout : (ps < 7/10 ∨ (13:ℚ)/10 ≤ ps) := by
        by_contra hcon
        push_neg at hcon
        exact hz ⟨hcon.1, hcon.2⟩
      cases hw : ctx.window_under_cursor with
      | none => simp [pinch_3f_on_end, hz, hout, hw]
      | some w =>
          by_cases hd : pdir = GestureDirection.In
          · simp [pinch_3f_on_end, hz, hout, hw, hd]
          · simp [pinch_3f_on_end, hz, hout, hw, hd]

/-- C7 witness: a Decided In pinch-3 cell with final scale 0.5, not
cancelled, a window under the cursor: its width is toggled with
grow = false. -/
theorem C7_pinch3_end_action_witness :
    (PinchGesture.mk (1/2) GestureDirection.In GestureState.Decided).decision =
        GestureState.Decided ∧
    ((PinchGesture.mk (1/2) GestureDirection.In GestureState.Decided).direction =
        GestureDirection.In ∨
     (PinchGesture.mk (1/2) GestureDirection.In GestureState.Decided).direction =
        GestureDirection.Out) ∧
    (pinch_3f_on_end chromeCtx
        (PinchGesture.mk (1/2) GestureDirection.In GestureState.Decided) false).2.1 =
      (if (false : Bool) = false ∧
          ((PinchGesture.mk (1/2) GestureDirection.In GestureState.Decided).scale < 7/10 ∨
            13/10 ≤ (PinchGesture.mk (1/2) GestureDirection.In GestureState.Decided).scale) then
         (match chromeCtx.window_under_cursor with
          | some w =>
              [Effect.ToggleWindowWidth w
                 (if (PinchGesture.mk (1/2) GestureDirection.In
                        GestureState.Decided).direction =
                       GestureDirection.In then false
                  else true)]
          | none => [])
       else []) :=
  ⟨rfl, Or.inl rfl,
   C7_pinch3_end_action chromeCtx
     (PinchGesture.mk (1/2) GestureDirection.In GestureState.Decided) false rfl (Or.inl rfl)⟩

/-- C10: a Deciding-state pinch update that commits (scale below 0.9 or
above 1.1) does not store that sample into the scale field, so the field
keeps its value; consequently, starting from a freshly reset cell, the
sequence begin, one committing update at scale 0.85 (itself inside the
action interval from 0.7 to 1.3), then on_end not cancelled, finds scale
still at the reset default 0, which is outside that interval, and the
terminal toggle fires even though every observed sample was inside it. -/
theorem C10_commit_skips_scale_store (ctx : Ctx) (w : Window) (p : PinchGesture) (s : ℚ)
    (hdec : p.decision = GestureState.Deciding)
    (hcommit : s < 9/10 ∨ 11/10 < s)
    (hw : ctx.window_under_cursor = some w) :
    ((pinch_3f_on_update p s).1.scale = p.scale ∧
     (pinch_4f_on_update p s).1.scale = p.scale) ∧
    ((pinch_3f_on_update PinchGesture.new.begin (17/20)).1.scale = 0 ∧
     (pinch_3f_on_update PinchGesture.new.begin (17/20)).1.decision =
       GestureState.Decided ∧
     (7:ℚ)/10 ≤ 17/20 ∧ (17:ℚ)/20 < 13/10 ∧
     (pinch_3f_on_end ctx
         ((pinch_3f_on_update PinchGesture.new.begin (17/20)).1) false).2.1 =
       [Effect.ToggleWindowWidth w false]) := by
  have hcell :
      (pinch_3f_on_update PinchGesture.new.begin (17/20)).1 =
        PinchGesture.mk 0 GestureDirection.In GestureState.Decided := by
    norm_num [pinch_3f_on_update, PinchGesture.new, PinchGesture.begin]
  refine ⟨⟨?_, ?_⟩, ?_⟩
  · rcases hcommit with hlt | hgt
    · simp [pinch_3f_on_update, hdec, hlt]
    · have hnlt : ¬ s < 9/10 := by linarith
      simp [pinch_3f_on_update, hdec, hnlt, hgt]
  · rcases hcommit with hlt | hgt
    · simp [pinch_4f_on_update, hdec, hlt]
    · have hnlt : ¬ s < 9/10 := by linarith
      simp [pinch_4f_on_update, hdec, hnlt, hgt]
  · rw [hcell]
    refine ⟨rfl, rfl, by norm_num, by norm_num, ?_⟩
    norm_num [pinch_3f_on_end, hw]

/-- C10 witness: the theorem at a Deciding cell with committing sample
0.85 and a context with a window under the cursor. -/
theorem C10_commit_skips_scale_store_witness :
    pinchDecidingCell.decision = GestureState.Deciding ∧
    ((17:ℚ)/20 < 9/10 ∨ (11:ℚ)/10 < 17/20) ∧
    chromeCtx.window_under_cursor = some otherWindow ∧
    (((pinch_3f_on_update pinchDecidingCell (17/20)).1.scale = pinchDecidingCell.scale ∧
      (pinch_4f_on_update pinchDecidingCell (17/20)).1.scale = pinchDecidingCell.scale) ∧
     ((pinch_3f_on_update PinchGesture.new.begin (17/20)).1.scale = 0 ∧
      (pinch_3f_on_update PinchGesture.new.begin (17/20)).1.decision =
        GestureState.Decided ∧
      (7:ℚ)/10 ≤ 17/20 ∧ (17:ℚ)/20 < 13/10 ∧
      (pinch_3f_on_end chromeCtx
          ((pinch_3f_on_update PinchGesture.new.begin (17/20)).1) false).2.1 =
        [Effect.ToggleWindowWidth otherWindow false])) :=
  ⟨rfl, Or.inl (by norm_num), rfl,
   C10_commit_skips_scale_store chromeCtx otherWindow pinchDecidingCell (17/20) rfl
     (Or.inl (by norm_num)) rfl⟩

end MyTouchpadGesture
